import Mathlib

/-!
Verification of the NEO atmospheric-entry and impact kernel
(`src/unnamed/part_005`, the variant whose behaviour the specification's
properties describe; `src/src/services/neoEntryImpact.js` is an older,
diverging copy of the same module, as the specification itself notes).

The JavaScript kernel is shallowly embedded over `ℝ`.  The unbounded
`while` loop of the trajectory integrator is embedded with an explicit
fuel parameter; invariants are proved for every fuel, and termination is
expressed as stabilisation of the fuelled run once the fuel exceeds the
flight-time safety cutoff divided by the timestep.
-/

noncomputable section

open Real List

/-! ### Constants (part_005, lines 12-37) -/

/-- Earth's escape velocity at surface (km/s). -/
def V_ESCAPE_EARTH : ℝ := 11.2

/-- Standard gravity (m/s^2). -/
def GRAVITY : ℝ := 9.81

/-- Sea-level atmospheric density (kg/m^3). -/
def RHO_0 : ℝ := 1.225

/-- Atmospheric scale height (m). -/
def SCALE_HEIGHT : ℝ := 7200

/-- Drag coefficient. -/
def C_D : ℝ := 1.0

/-- Heat transfer coefficient. -/
def LAMBDA : ℝ := 0.7

/-- Effective heat of ablation (J/kg). -/
def Q_ABLATION : ℝ := 8e6

/-- Top of atmosphere altitude for entry calculations (m). -/
def H_ENTRY : ℝ := 100000

/-- Minimum velocity threshold for terminal velocity mode (m/s). -/
def MIN_VELOCITY : ℝ := 500

/-! ### Utility functions (part_005, lines 49-80) -/

/-- JS `toRadians(degrees)`. -/
def toRadians (degrees : ℝ) : ℝ := degrees * Real.pi / 180

/-- JS `toDegrees(radians)`. -/
def toDegrees (radians : ℝ) : ℝ := radians * 180 / Real.pi

/-- JS `atmosphericDensity(altitude)`: exponential atmosphere with a
ground-level clamp for negative altitudes. -/
def atmosphericDensity (altitude : ℝ) : ℝ :=
  if altitude < 0 then RHO_0 else RHO_0 * Real.exp (-altitude / SCALE_HEIGHT)

/-- JS `dynamicPressure(rho, velocity) = 0.5 * rho * v^2`. -/
def dynamicPressure (rho velocity : ℝ) : ℝ := 0.5 * rho * velocity * velocity

/-! ### Entry conditions (part_005, lines 99-116) -/

structure EntryConditions where
  velocity : ℝ
  vInfinity : ℝ
  angle : ℝ

/-- JS `calculateEntryConditions(vInfinity, entryAngleDeg)`: low speeds
(`vInfinity < 3` km/s) pass through directly, high speeds combine with the
escape velocity. -/
def calculateEntryConditions (vInfinity entryAngleDeg : ℝ) : EntryConditions :=
  { velocity :=
      (if vInfinity < 3 then vInfinity
       else Real.sqrt (vInfinity * vInfinity + V_ESCAPE_EARTH * V_ESCAPE_EARTH)) * 1000
    vInfinity := vInfinity
    angle := entryAngleDeg }

/-! ### Body properties (part_005, lines 138-152) -/

structure Material where
  density : ℝ
  strength : ℝ
  name : Option String

structure BodyProperties where
  diameter : ℝ
  mass : ℝ
  area : ℝ
  density : ℝ
  strength : ℝ
  material : String

/-- JS `material.name || 'custom'` (empty string is falsy). -/
def jsOrString (x : Option String) (d : String) : String :=
  match x with
  | none => d
  | some s => if s = "" then d else s

/-- JS `calculateBodyProperties(diameter, material)`. -/
def calculateBodyProperties (diameter : ℝ) (material : Material) : BodyProperties :=
  { diameter := diameter
    mass := material.density * ((4 / 3) * Real.pi * (diameter / 2) * (diameter / 2) * (diameter / 2))
    area := Real.pi * (diameter / 2) * (diameter / 2)
    density := material.density
    strength := material.strength
    material := jsOrString material.name "custom" }

/-! ### Trajectory integration (part_005, lines 158-379)

The `while` loop is embedded with an explicit fuel parameter.  Each JS
iteration-local variable becomes a small definition named after it, and
`stepBody` assembles one loop iteration, returning the updated state and
whether a `break` fired (either the complete-ablation break or the
flight-time safety cutoff). -/

structure TrajectoryState where
  time : ℝ
  altitude : ℝ
  velocity : ℝ
  mass : ℝ
  angle : ℝ
  q : ℝ
  rho : ℝ
  fragmented : Bool

structure ImpactSummary where
  altitude : ℝ
  velocity : ℝ
  mass : ℝ
  massFraction : ℝ
  airburst : Bool
  airburstAltitude : Option ℝ
  airburstEnergy : Option ℝ
  groundImpact : Bool
  impactEnergy : ℝ

structure TrajectoryResult where
  trajectory : List TrajectoryState
  impact : ImpactSummary

/-- Caller-supplied options; `none` models an absent JS field. -/
structure IntegrationOptions where
  dt : Option ℝ
  lambda : Option ℝ
  Q : Option ℝ
  Cd : Option ℝ
  fragmentationMultiplier : Option ℝ
  recordTrajectory : Option Bool
  recordInterval : Option ℕ

/-- JS `x || d` for a numeric option: absent or `0` (falsy) yields the
default. -/
def jsOrNum (x : Option ℝ) (d : ℝ) : ℝ :=
  match x with
  | none => d
  | some v => if v = 0 then d else v

/-- JS `x || d` for a natural-number option. -/
def jsOrNat (x : Option ℕ) (d : ℕ) : ℕ :=
  match x with
  | none => d
  | some v => if v = 0 then d else v

def resolveDt (o : IntegrationOptions) : ℝ := jsOrNum o.dt 0.05

def resolveLambda (o : IntegrationOptions) : ℝ := jsOrNum o.lambda LAMBDA

def resolveQ (o : IntegrationOptions) : ℝ := jsOrNum o.Q Q_ABLATION

def resolveCd (o : IntegrationOptions) : ℝ := jsOrNum o.Cd C_D

def resolveFragMult (o : IntegrationOptions) : ℝ := jsOrNum o.fragmentationMultiplier 3

/-- JS `options.recordTrajectory || false`. -/
def resolveRecordTrajectory (o : IntegrationOptions) : Bool :=
  match o.recordTrajectory with
  | none => false
  | some b => b

def resolveRecordInterval (o : IntegrationOptions) : ℕ := jsOrNat o.recordInterval 10

/-- The loop-constant data of one integration run: resolved options plus
the flight-path angle `gamma` (radians) and the initial entry speed `iv`
(JS `initialVelocity`). -/
structure LoopParams where
  dt : ℝ
  lambda : ℝ
  Q : ℝ
  Cd : ℝ
  fragMult : ℝ
  recordTrajectory : Bool
  recordInterval : ℕ
  gamma : ℝ
  iv : ℝ

def mkParams (ec : EntryConditions) (opts : IntegrationOptions) : LoopParams :=
  { dt := resolveDt opts
    lambda := resolveLambda opts
    Q := resolveQ opts
    Cd := resolveCd opts
    fragMult := resolveFragMult opts
    recordTrajectory := resolveRecordTrajectory opts
    recordInterval := resolveRecordInterval opts
    gamma := toRadians ec.angle
    iv := ec.velocity }

/-- The mutable simulation variables of the JS loop. -/
structure SimState where
  t : ℝ
  h : ℝ
  v : ℝ
  m : ℝ
  A : ℝ
  fragmented : Bool
  airburstAltitude : Option ℝ
  airburstEnergy : Option ℝ
  stepCount : ℕ
  trajectory : List TrajectoryState

/-- JS `rho = atmosphericDensity(h)`. -/
def step_rho (s : SimState) : ℝ := atmosphericDensity s.h

/-- JS `q = dynamicPressure(rho, v)`. -/
def step_q (s : SimState) : ℝ := dynamicPressure (step_rho s) s.v

/-- The fragmentation/breakup condition (part_005 line 263):
`!fragmented && v > 1000 && initialVelocity > 1000 && q >= strength`. -/
def fragFire (bp : BodyProperties) (p : LoopParams) (s : SimState) : Prop :=
  s.fragmented = false ∧ 1000 < s.v ∧ 1000 < p.iv ∧ bp.strength ≤ step_q s

instance (bp : BodyProperties) (p : LoopParams) (s : SimState) :
    Decidable (fragFire bp p s) := by
  unfold fragFire
  infer_instance

/-- Effective area after the (possible) fragmentation of this step. -/
def step_A (bp : BodyProperties) (p : LoopParams) (s : SimState) : ℝ :=
  if fragFire bp p s then s.A * p.fragMult else s.A

def step_airburstAltitude (bp : BodyProperties) (p : LoopParams) (s : SimState) : Option ℝ :=
  if fragFire bp p s then some s.h else s.airburstAltitude

/-- JS `energyAtBreakup = (0.5 * m * v * v) / 4.184e15`. -/
def energyAtBreakup (s : SimState) : ℝ := 0.5 * s.m * s.v * s.v / 4.184e15

/-- The airburst energy is only recorded when it exceeds 1e-5 Mt. -/
def step_airburstEnergy (bp : BodyProperties) (p : LoopParams) (s : SimState) : Option ℝ :=
  if fragFire bp p s then
    (if 0.00001 < energyAtBreakup s then some (energyAtBreakup s) else s.airburstEnergy)
  else s.airburstEnergy

def step_fragmented (bp : BodyProperties) (p : LoopParams) (s : SimState) : Bool :=
  if fragFire bp p s then true else s.fragmented

/-- JS `dragAccel = -(Cd * A / (2 * m)) * rho * v * v` (with the
post-fragmentation area and the pre-ablation mass). -/
def dragAccel (bp : BodyProperties) (p : LoopParams) (s : SimState) : ℝ :=
  -(p.Cd * step_A bp p s / (2 * s.m)) * step_rho s * s.v * s.v

/-- JS `gravAccel = -GRAVITY * Math.sin(gamma)`. -/
def gravAccel (p : LoopParams) : ℝ := -GRAVITY * Real.sin p.gamma

def totalAccel (bp : BodyProperties) (p : LoopParams) (s : SimState) : ℝ :=
  dragAccel bp p s + gravAccel p

/-- Mass after this step's ablation: only active above 3000 m/s, clamped
at zero (part_005 lines 286-291). -/
def step_m1 (bp : BodyProperties) (p : LoopParams) (s : SimState) : ℝ :=
  if 3000 < s.v then
    max 0 (s.m + (-(p.lambda * step_A bp p s / (2 * p.Q)) * step_rho s * s.v * s.v * s.v) * p.dt)
  else s.m

/-- JS `v_new = v + totalAccel * dt`. -/
def v_new (bp : BodyProperties) (p : LoopParams) (s : SimState) : ℝ :=
  s.v + totalAccel bp p s * p.dt

/-- Velocity after this step: terminal-velocity clamp when the Euler
update would fall below `MIN_VELOCITY` (part_005 lines 299-307). -/
def step_v1 (bp : BodyProperties) (p : LoopParams) (s : SimState) : ℝ :=
  if v_new bp p s < MIN_VELOCITY ∧ 0 < step_rho s ∧ 0 < step_m1 bp p s then
    min (Real.sqrt (2 * step_m1 bp p s * GRAVITY / (step_rho s * p.Cd * step_A bp p s))) 200
  else max 0 (v_new bp p s)

/-- JS `h = h - v * Math.sin(gamma) * dt` (with the updated velocity). -/
def step_h1 (bp : BodyProperties) (p : LoopParams) (s : SimState) : ℝ :=
  s.h - step_v1 bp p s * Real.sin p.gamma * p.dt

def step_t1 (p : LoopParams) (s : SimState) : ℝ := s.t + p.dt

/-- One iteration of the integration loop.  The second component is true
when a `break` fired: complete ablation (part_005 line 314-317, before
recording and the step counter), or the flight-time safety cutoff
(line 341, after them).  The low-velocity mass reset (lines 319-321) and
the trajectory recording (lines 324-335) happen on the non-ablated path. -/
def stepBody (bp : BodyProperties) (p : LoopParams) (s : SimState) : SimState × Bool :=
  if step_m1 bp p s ≤ 0 ∧ 3000 < p.iv then
    ({ t := step_t1 p s, h := step_h1 bp p s, v := step_v1 bp p s, m := 0,
       A := step_A bp p s, fragmented := step_fragmented bp p s,
       airburstAltitude := step_airburstAltitude bp p s,
       airburstEnergy := step_airburstEnergy bp p s,
       stepCount := s.stepCount, trajectory := s.trajectory }, true)
  else
    ({ t := step_t1 p s, h := step_h1 bp p s, v := step_v1 bp p s,
       m := if step_m1 bp p s ≤ 0 ∧ p.iv ≤ 3000 then bp.mass else step_m1 bp p s,
       A := step_A bp p s, fragmented := step_fragmented bp p s,
       airburstAltitude := step_airburstAltitude bp p s,
       airburstEnergy := step_airburstEnergy bp p s,
       stepCount := s.stepCount + 1,
       trajectory :=
         if p.recordTrajectory = true ∧ s.stepCount % p.recordInterval = 0 then
           s.trajectory ++
             [{ time := step_t1 p s, altitude := step_h1 bp p s, velocity := step_v1 bp p s,
                mass := if step_m1 bp p s ≤ 0 ∧ p.iv ≤ 3000 then bp.mass else step_m1 bp p s,
                angle := p.gamma, q := step_q s, rho := step_rho s,
                fragmented := step_fragmented bp p s }]
         else s.trajectory },
     decide (1800 < step_t1 p s))

/-- The fuelled `while (h > 0)` loop. -/
def loopF (bp : BodyProperties) (p : LoopParams) : ℕ → SimState → SimState
  | 0, s => s
  | n + 1, s =>
    if 0 < s.h then
      if (stepBody bp p s).2 then (stepBody bp p s).1
      else loopF bp p n (stepBody bp p s).1
    else s

/-- Initial simulation state at the top of the atmosphere. -/
def initState (ec : EntryConditions) (bp : BodyProperties) (p : LoopParams) : SimState :=
  { t := 0, h := H_ENTRY, v := ec.velocity, m := bp.mass, A := bp.area,
    fragmented := false, airburstAltitude := none, airburstEnergy := none,
    stepCount := 0,
    trajectory :=
      if p.recordTrajectory = true then
        [{ time := 0, altitude := H_ENTRY, velocity := ec.velocity, mass := bp.mass,
           angle := p.gamma,
           q := dynamicPressure (atmosphericDensity H_ENTRY) ec.velocity,
           rho := atmosphericDensity H_ENTRY, fragmented := false }]
      else [] }

/-- JS `integrateTrajectory(entryConditions, bodyProperties, options)`.
`fuel` bounds the number of loop iterations actually taken; claims about
the integrator are proved for every fuel, and C6 shows the run is
unchanged by extra fuel once it exceeds the safety cutoff over `dt`. -/
def integrateTrajectory (ec : EntryConditions) (bp : BodyProperties)
    (opts : IntegrationOptions) (fuel : ℕ) : TrajectoryResult :=
  let p := mkParams ec opts
  let sF := loopF bp p fuel (initState ec bp p)
  { trajectory :=
      if p.recordTrajectory = true then
        sF.trajectory ++
          [{ time := sF.t, altitude := sF.h, velocity := sF.v, mass := sF.m,
             angle := p.gamma, q := dynamicPressure (atmosphericDensity sF.h) sF.v,
             rho := atmosphericDensity sF.h, fragmented := sF.fragmented }]
      else sF.trajectory
    impact :=
      { altitude := sF.h
        velocity := sF.v
        mass := sF.m
        massFraction := sF.m / bp.mass
        airburst :=
          sF.fragmented && decide (0 < sF.h) &&
            (match sF.airburstEnergy with
             | none => false
             | some e => decide (0 < e))
        airburstAltitude := sF.airburstAltitude
        airburstEnergy := sF.airburstEnergy
        groundImpact := decide (sF.h ≤ 0)
        impactEnergy := 0.5 * sF.m * sF.v * sF.v / 4.184e15 } }

/-! ### Blast effects estimation (part_005, lines 407-536)

The guard branch of the JS function returns an object with only three
damage radii; the missing `radiusExtreme` field (JS `undefined`) is
modelled as `none`. -/

structure BlastEffects where
  energy : ℝ
  altitude : ℝ
  radiusWindowBreak : ℝ
  radiusStructuralDamage : ℝ
  radiusSevereDestruction : ℝ
  radiusExtreme : Option ℝ
  severity : String

/-- JS `yield_scale = Math.pow(E_kt, 1/3)`. -/
def yield_scale (E_kt : ℝ) : ℝ := E_kt ^ ((1:ℝ) / 3)

/-- JS `alt_factor = Math.pow(1 + altitude / 6789, 2)`. -/
def alt_factor (altitude : ℝ) : ℝ := (1 + altitude / 6789) ^ 2

/-- JS `p_1kt = p_target / Math.pow(E_kt, 2/3)`. -/
def p_1kt (E_kt p_target : ℝ) : ℝ := p_target / E_kt ^ ((2:ℝ) / 3)

/-- JS `denominator = p_1kt * alt_factor`. -/
def rfo_denominator (E_kt altitude p_target : ℝ) : ℝ :=
  p_1kt E_kt p_target * alt_factor altitude

/-- JS `r_term = (3.14e11 / denominator) - 2.5e5`. -/
def r_term (E_kt altitude p_target : ℝ) : ℝ :=
  3.14e11 / rfo_denominator E_kt altitude p_target - 2.5e5

/-- The inner JS `rangeForOverpressure(p_target)` closure (part_005,
lines 443-469), with its captured `E_kt` and `altitude` made explicit:
range in km at which the yield-scaled Collins et al. overpressure equals
`p_target`, with a 10 m floor. -/
def rangeForOverpressure (E_kt altitude p_target : ℝ) : ℝ :=
  if p_target ≤ 0 then 0
  else if rfo_denominator E_kt altitude p_target ≤ 0 then 0
  else if r_term E_kt altitude p_target ≤ 0 then 0.01
  else r_term E_kt altitude p_target ^ ((1:ℝ) / 2.5) * yield_scale E_kt / 1000

/-- The four raw damage radii (2 kPa, 20 kPa, 35 kPa, 100 kPa). -/
def blast_radii (E_kt altitude : ℝ) : ℝ × ℝ × ℝ × ℝ :=
  (rangeForOverpressure E_kt altitude 2000, rangeForOverpressure E_kt altitude 20000,
   rangeForOverpressure E_kt altitude 35000, rangeForOverpressure E_kt altitude 100000)

/-- JS `attenuation = Math.exp(-Math.pow((h_burst_km - 25) / 8, 0.6))`. -/
def attenuationFactor (altitude : ℝ) : ℝ :=
  Real.exp (-(((altitude / 1000 - 25) / 8) ^ ((0.6:ℝ))))

/-- The radii after the empirical high-altitude attenuation (applied only
for burst altitudes above 25 km). -/
def attenuated_radii (E_kt altitude : ℝ) : ℝ × ℝ × ℝ × ℝ :=
  if 25 < altitude / 1000 then
    ((blast_radii E_kt altitude).1 * attenuationFactor altitude,
     (blast_radii E_kt altitude).2.1 * attenuationFactor altitude,
     (blast_radii E_kt altitude).2.2.1 * attenuationFactor altitude,
     (blast_radii E_kt altitude).2.2.2 * attenuationFactor altitude)
  else blast_radii E_kt altitude

/-- The 300 km cap applied (only) to the window-breakage radius. -/
def cappedWindowBreak (E_kt altitude : ℝ) : ℝ :=
  if 300 < (attenuated_radii E_kt altitude).1 then 300
  else (attenuated_radii E_kt altitude).1

/-- JS `estimateBlastEffects(energy, altitude)` (part_005): four overpressure
radii from the inverted Collins et al. fit, empirical attenuation above a
25 km burst altitude, a 300 km cap on the window-breakage radius, and an
ordinal severity classification. -/
def estimateBlastEffects (energy altitude : ℝ) : BlastEffects :=
  if energy ≤ 0 ∨ altitude ≤ 0 then
    { energy := energy, altitude := altitude, radiusWindowBreak := 0,
      radiusStructuralDamage := 0, radiusSevereDestruction := 0,
      radiusExtreme := none, severity := "none" }
  else
    { energy := energy
      altitude := altitude
      radiusWindowBreak := cappedWindowBreak (energy * 1000) altitude
      radiusStructuralDamage := (attenuated_radii (energy * 1000) altitude).2.1
      radiusSevereDestruction := (attenuated_radii (energy * 1000) altitude).2.2.1
      radiusExtreme := some ((attenuated_radii (energy * 1000) altitude).2.2.2)
      severity :=
        if 10 < (attenuated_radii (energy * 1000) altitude).2.2.1 then "catastrophic"
        else if 3 < (attenuated_radii (energy * 1000) altitude).2.2.1 then "major"
        else if 10 < (attenuated_radii (energy * 1000) altitude).2.1 then "significant"
        else if 20 < cappedWindowBreak (energy * 1000) altitude then "moderate"
        else "minor" }

/-! ### Named concrete inputs and the loop invariant

`finalState` abbreviates the loop state a fuelled run ends in.  `MInv` is
the mass invariant maintained by every loop iteration.  The `A`/`B`/`C`
input families are the concrete runs used by witnesses and
counterexamples: run A is a fast, weak, tiny body that fragments and then
fully ablates aloft on its first step; run B fragments and still crosses
the ground within one (coarse, `dt = 100`) step; run C is run B with an
enormous strength, so it never fragments but ablates away completely in
the ground-crossing step; `ecW` is a slow (1 km/s) entry. -/

/-- The loop state a run ends in. -/
def finalState (ec : EntryConditions) (bp : BodyProperties)
    (opts : IntegrationOptions) (fuel : ℕ) : SimState :=
  loopF bp (mkParams ec opts) fuel (initState ec bp (mkParams ec opts))

/-- The mass invariant of the integration loop. -/
def MInv (bp : BodyProperties) (s : SimState) : Prop :=
  0 ≤ s.m ∧ s.m ≤ bp.mass ∧ 0 ≤ s.v ∧ 0 ≤ s.A ∧
  ((s.trajectory.map fun st => st.mass).Pairwise fun a b => b ≤ a) ∧
  ∀ st ∈ s.trajectory, s.m ≤ st.mass

def ecA : EntryConditions := { velocity := 1e9, vInfinity := 20, angle := 90 }

def bpA : BodyProperties :=
  { diameter := 1, mass := 1, area := 1, density := 1, strength := 1, material := "test" }

def optsA : IntegrationOptions :=
  { dt := none, lambda := none, Q := none, Cd := none, fragmentationMultiplier := none,
    recordTrajectory := none, recordInterval := none }

def pA : LoopParams :=
  { dt := 0.05, lambda := 0.7, Q := 8e6, Cd := 1.0, fragMult := 3,
    recordTrajectory := false, recordInterval := 10, gamma := toRadians 90, iv := 1e9 }

def sA0 : SimState :=
  { t := 0, h := 100000, v := 1e9, m := 1, A := 1, fragmented := false,
    airburstAltitude := none, airburstEnergy := none, stepCount := 0, trajectory := [] }

def ecB : EntryConditions := { velocity := 1e6, vInfinity := 15, angle := 90 }

def optsB : IntegrationOptions :=
  { dt := some 100, lambda := none, Q := none, Cd := some 1e-20,
    fragmentationMultiplier := none, recordTrajectory := none, recordInterval := none }

def pB : LoopParams :=
  { dt := 100, lambda := 0.7, Q := 8e6, Cd := 1e-20, fragMult := 3,
    recordTrajectory := false, recordInterval := 10, gamma := toRadians 90, iv := 1e6 }

def sB0 : SimState :=
  { t := 0, h := 100000, v := 1e6, m := 1, A := 1, fragmented := false,
    airburstAltitude := none, airburstEnergy := none, stepCount := 0, trajectory := [] }

def bpC : BodyProperties :=
  { diameter := 1, mass := 1, area := 1, density := 1, strength := 1e30, material := "test" }

def ecW : EntryConditions := { velocity := 1000, vInfinity := 1, angle := 90 }

/-! ### Claim C7 -/

/-- C7: for non-positive energy or non-positive altitude,
`estimateBlastEffects` short-circuits to all-zero damage radii and
severity "none" (the guard branch carries no `radiusExtreme` field at
all, modelled as `none`). -/
theorem estimateBlastEffects_guard (energy altitude : ℝ)
    (h : energy ≤ 0 ∨ altitude ≤ 0) :
    (estimateBlastEffects energy altitude).radiusWindowBreak = 0 ∧
    (estimateBlastEffects energy altitude).radiusStructuralDamage = 0 ∧
    (estimateBlastEffects energy altitude).radiusSevereDestruction = 0 ∧
    (estimateBlastEffects energy altitude).radiusExtreme = none ∧
    (estimateBlastEffects energy altitude).severity = "none" := by
  rw [estimateBlastEffects, if_pos h]
  exact ⟨rfl, rfl, rfl, rfl, rfl⟩

/-- Witness for C7: zero energy at a positive altitude yields the
all-zero, severity-"none" result. -/
theorem estimateBlastEffects_guard_witness :
    (estimateBlastEffects 0 5000).radiusWindowBreak = 0 ∧
    (estimateBlastEffects 0 5000).radiusStructuralDamage = 0 ∧
    (estimateBlastEffects 0 5000).radiusSevereDestruction = 0 ∧
    (estimateBlastEffects 0 5000).radiusExtreme = none ∧
    (estimateBlastEffects 0 5000).severity = "none" :=
  estimateBlastEffects_guard 0 5000 (Or.inl le_rfl)

/-! ### Claim C1 -/

/-- C1: for every `vInfinity ≥ 0` and angle, `calculateEntryConditions`
returns `velocity = vInfinity * 1000` in the pass-through regime
(`vInfinity < 3` km/s) and `velocity = sqrt(vInfinity^2 + 11.2^2) * 1000`
in the hyperbolic-approach regime (`vInfinity ≥ 3` km/s). -/
theorem calculateEntryConditions_velocity (vInfinity entryAngleDeg : ℝ)
    (hv : 0 ≤ vInfinity) :
    (vInfinity < 3 →
      (calculateEntryConditions vInfinity entryAngleDeg).velocity = vInfinity * 1000) ∧
    (3 ≤ vInfinity →
      (calculateEntryConditions vInfinity entryAngleDeg).velocity =
        Real.sqrt (vInfinity ^ 2 + 11.2 ^ 2) * 1000) := by
  constructor
  · intro h
    simp [calculateEntryConditions, if_pos h]
  · intro h
    have hn : ¬ vInfinity < 3 := not_lt.mpr h
    simp only [calculateEntryConditions, if_neg hn, V_ESCAPE_EARTH]
    ring_nf

/-- Witness for C1: at `vInfinity = 2` km/s the entry velocity is exactly
2000 m/s. -/
theorem calculateEntryConditions_velocity_witness :
    (calculateEntryConditions 2 45).velocity = 2 * 1000 :=
  (calculateEntryConditions_velocity 2 45 (by norm_num)).1 (by norm_num)

/-! ### Claim C8 -/

/-- C8: the air-density function equals `1.225 * exp(-h/7200)` for `h ≥ 0`,
returns `1.225` for `h < 0`, and is strictly decreasing on non-negative
altitudes. -/
theorem atmosphericDensity_spec :
    (∀ h : ℝ, 0 ≤ h → atmosphericDensity h = 1.225 * Real.exp (-h / 7200)) ∧
    (∀ h : ℝ, h < 0 → atmosphericDensity h = 1.225) ∧
    (∀ h1 h2 : ℝ, 0 ≤ h1 → h1 < h2 → atmosphericDensity h2 < atmosphericDensity h1) := by
  refine ⟨?_, ?_, ?_⟩
  · intro h hh
    rw [atmosphericDensity, if_neg (not_lt.mpr hh), RHO_0, SCALE_HEIGHT]
  · intro h hh
    rw [atmosphericDensity, if_pos hh, RHO_0]
  · intro h1 h2 h1n hlt
    have h2n : ¬ h2 < 0 := by linarith
    rw [atmosphericDensity, if_neg h2n, atmosphericDensity, if_neg (not_lt.mpr h1n)]
    have hexp : Real.exp (-h2 / SCALE_HEIGHT) < Real.exp (-h1 / SCALE_HEIGHT) := by
      apply Real.exp_lt_exp.mpr
      rw [SCALE_HEIGHT]
      linarith
    have hρ : (0:ℝ) < RHO_0 := by rw [RHO_0]; norm_num
    exact mul_lt_mul_of_pos_left hexp hρ

/-- Witness for C8: density at 7200 m is strictly below sea-level density. -/
theorem atmosphericDensity_spec_witness :
    atmosphericDensity 7200 < atmosphericDensity 0 :=
  atmosphericDensity_spec.2.2 0 7200 (by norm_num) (by norm_num)

/-! ### Plumbing lemmas for the integrator -/

lemma impact_altitude_eq (ec : EntryConditions) (bp : BodyProperties)
    (opts : IntegrationOptions) (fuel : ℕ) :
    (integrateTrajectory ec bp opts fuel).impact.altitude = (finalState ec bp opts fuel).h := rfl

lemma impact_mass_eq (ec : EntryConditions) (bp : BodyProperties)
    (opts : IntegrationOptions) (fuel : ℕ) :
    (integrateTrajectory ec bp opts fuel).impact.mass = (finalState ec bp opts fuel).m := rfl

lemma impact_massFraction_eq (ec : EntryConditions) (bp : BodyProperties)
    (opts : IntegrationOptions) (fuel : ℕ) :
    (integrateTrajectory ec bp opts fuel).impact.massFraction =
      (finalState ec bp opts fuel).m / bp.mass := rfl

lemma impact_airburst_eq (ec : EntryConditions) (bp : BodyProperties)
    (opts : IntegrationOptions) (fuel : ℕ) :
    (integrateTrajectory ec bp opts fuel).impact.airburst =
      ((finalState ec bp opts fuel).fragmented &&
        decide (0 < (finalState ec bp opts fuel).h) &&
        (match (finalState ec bp opts fuel).airburstEnergy with
         | none => false
         | some e => decide (0 < e))) := rfl

lemma impact_airburstAltitude_eq (ec : EntryConditions) (bp : BodyProperties)
    (opts : IntegrationOptions) (fuel : ℕ) :
    (integrateTrajectory ec bp opts fuel).impact.airburstAltitude =
      (finalState ec bp opts fuel).airburstAltitude := rfl

lemma impact_airburstEnergy_eq (ec : EntryConditions) (bp : BodyProperties)
    (opts : IntegrationOptions) (fuel : ℕ) :
    (integrateTrajectory ec bp opts fuel).impact.airburstEnergy =
      (finalState ec bp opts fuel).airburstEnergy := rfl

lemma impact_groundImpact_eq (ec : EntryConditions) (bp : BodyProperties)
    (opts : IntegrationOptions) (fuel : ℕ) :
    (integrateTrajectory ec bp opts fuel).impact.groundImpact =
      decide ((finalState ec bp opts fuel).h ≤ 0) := rfl

lemma stepBody_fst_fragmented (bp : BodyProperties) (p : LoopParams) (s : SimState) :
    (stepBody bp p s).1.fragmented = step_fragmented bp p s := by
  rw [stepBody]
  split <;> rfl

/-! ### Claim C9 -/

/-- C9: the impact summary never reports `airburst` and `groundImpact`
together: `airburst` requires a final altitude above 0 while
`groundImpact` means the final altitude is at most 0. -/
theorem airburst_ground_exclusive (ec : EntryConditions) (bp : BodyProperties)
    (opts : IntegrationOptions) (fuel : ℕ) :
    ((integrateTrajectory ec bp opts fuel).impact.airburst &&
      (integrateTrajectory ec bp opts fuel).impact.groundImpact) = false := by
  rw [impact_airburst_eq, impact_groundImpact_eq]
  rcases le_or_lt (finalState ec bp opts fuel).h 0 with hle | hlt
  · have : ¬ (0 < (finalState ec bp opts fuel).h) := not_lt.mpr hle
    simp [this]
  · have : ¬ ((finalState ec bp opts fuel).h ≤ 0) := not_le.mpr hlt
    simp [this]

/-! ### Claim C3 -/

/-- C3: if the impact summary has `airburst = true` then a positive
airburst energy was recorded, and the fragmentation transition can only
fire at a step where both the current speed and the initial entry speed
exceed 1000 m/s. -/
theorem integrateTrajectory_airburst_conditions :
    (∀ (ec : EntryConditions) (bp : BodyProperties) (opts : IntegrationOptions) (fuel : ℕ),
      (integrateTrajectory ec bp opts fuel).impact.airburst = true →
        ∃ e, (integrateTrajectory ec bp opts fuel).impact.airburstEnergy = some e ∧ 0 < e) ∧
    (∀ (bp : BodyProperties) (p : LoopParams) (s : SimState),
      s.fragmented = false → (stepBody bp p s).1.fragmented = true →
        1000 < s.v ∧ 1000 < p.iv) := by
  constructor
  · intro ec bp opts fuel hab
    rw [impact_airburst_eq] at hab
    rw [impact_airburstEnergy_eq]
    rcases Bool.and_eq_true_iff.mp hab with ⟨-, hmatch⟩
    rcases hE : (finalState ec bp opts fuel).airburstEnergy with - | e
    · rw [hE] at hmatch
      exact absurd hmatch (by simp)
    · rw [hE] at hmatch
      exact ⟨e, rfl, of_decide_eq_true hmatch⟩
  · intro bp p s hs hstep
    rw [stepBody_fst_fragmented, step_fragmented] at hstep
    by_cases hf : fragFire bp p s
    · exact ⟨hf.2.1, hf.2.2.1⟩
    · rw [if_neg hf] at hstep
      exact absurd (hs ▸ hstep) (by simp)

/-! ### Bounds on the density at the entry altitude -/

lemma atmosphericDensity_pos (x : ℝ) : 0 < atmosphericDensity x := by
  rw [atmosphericDensity]
  split
  · rw [RHO_0]; norm_num
  · have := Real.exp_pos (-x / SCALE_HEIGHT)
    rw [RHO_0]
    nlinarith

lemma atmosphericDensity_le (x : ℝ) : atmosphericDensity x ≤ 1.225 := by
  rw [atmosphericDensity]
  split
  · rw [RHO_0]
  · rename_i hx
    have h0 : -x / SCALE_HEIGHT ≤ 0 := by
      rw [SCALE_HEIGHT]
      push_neg at hx
      have h1 : 0 ≤ x / 7200 := by positivity
      rw [neg_div]
      linarith
    have := Real.exp_le_one_iff.mpr h0
    have := Real.exp_pos (-x / SCALE_HEIGHT)
    rw [RHO_0]
    nlinarith

lemma exp_fourteen_le : Real.exp 14 ≤ 4782969 := by
  calc Real.exp 14 = Real.exp 1 ^ (14 : ℕ) := by
        rw [← Real.exp_one_rpow 14, ← Real.rpow_natCast (Real.exp 1) 14]
        norm_num
  _ ≤ 2.7182818286 ^ (14 : ℕ) :=
        pow_le_pow_left (le_of_lt (Real.exp_pos 1)) (le_of_lt Real.exp_one_lt_d9) 14
  _ ≤ 4782969 := by norm_num

lemma rho100000_lb : (2.45e-7 : ℝ) ≤ atmosphericDensity 100000 := by
  rw [atmosphericDensity, if_neg (by norm_num), RHO_0, SCALE_HEIGHT]
  have h1 : Real.exp (-14) ≤ Real.exp (-(100000:ℝ) / 7200) :=
    Real.exp_le_exp.mpr (by norm_num)
  have h2 : ((4782969:ℝ))⁻¹ ≤ Real.exp (-14) := by
    rw [Real.exp_neg]
    exact inv_le_inv_of_le (Real.exp_pos 14) exp_fourteen_le
  nlinarith

/-! ### A concrete airburst run (run A)

A tiny, very fast body with negligible strength: fragmentation fires on
the first step at 100 km, ablation wipes out the whole mass in that same
step, and the complete-ablation break ends the run aloft, producing an
impact summary with `airburst = true`. -/

lemma mkParams_A : mkParams ecA optsA = pA := rfl

lemma initState_A : initState ecA bpA pA = sA0 := rfl

lemma sin_toRadians_90 : Real.sin (toRadians 90) = 1 := by
  have h : toRadians 90 = Real.pi / 2 := by rw [toRadians]; ring
  rw [h, Real.sin_pi_div_two]

lemma fragFire_A : fragFire bpA pA sA0 := by
  refine ⟨rfl, by norm_num [sA0], by norm_num [pA], ?_⟩
  show (1:ℝ) ≤ 0.5 * atmosphericDensity 100000 * 1e9 * 1e9
  nlinarith [rho100000_lb]

lemma step_A_A : step_A bpA pA sA0 = 3 := by
  rw [step_A, if_pos fragFire_A]
  norm_num [sA0, pA]

lemma step_m1_A : step_m1 bpA pA sA0 = 0 := by
  rw [step_m1, if_pos (show (3000:ℝ) < sA0.v by norm_num [sA0]), step_A_A]
  apply max_eq_left
  show (1:ℝ) + -(0.7 * 3 / (2 * 8e6)) * atmosphericDensity 100000 * 1e9 * 1e9 * 1e9 * 0.05 ≤ 0
  nlinarith [rho100000_lb]

lemma v_new_A : v_new bpA pA sA0 ≤ 0 := by
  rw [v_new, totalAccel, dragAccel, gravAccel, step_A_A]
  show (1e9:ℝ) + (-(1.0 * 3 / (2 * 1)) * atmosphericDensity 100000 * 1e9 * 1e9 +
      -GRAVITY * Real.sin pA.gamma) * 0.05 ≤ 0
  have hs : Real.sin pA.gamma = 1 := sin_toRadians_90
  rw [hs, GRAVITY]
  nlinarith [rho100000_lb]

lemma step_v1_A : step_v1 bpA pA sA0 = 0 := by
  rw [step_v1, if_neg]
  · exact max_eq_left v_new_A
  · rintro ⟨-, -, h3⟩
    rw [step_m1_A] at h3
    exact lt_irrefl 0 h3

lemma step_h1_A : step_h1 bpA pA sA0 = 100000 := by
  rw [step_h1, step_v1_A]
  norm_num [sA0]

lemma step_fragmented_A : step_fragmented bpA pA sA0 = true := by
  rw [step_fragmented, if_pos fragFire_A]

lemma step_airburstAltitude_A : step_airburstAltitude bpA pA sA0 = some 100000 := by
  rw [step_airburstAltitude, if_pos fragFire_A]
  rfl

lemma energyAtBreakup_A_pos : (0.00001 : ℝ) < energyAtBreakup sA0 := by
  rw [energyAtBreakup]
  norm_num [sA0]

lemma step_airburstEnergy_A :
    step_airburstEnergy bpA pA sA0 = some (energyAtBreakup sA0) := by
  rw [step_airburstEnergy, if_pos fragFire_A, if_pos energyAtBreakup_A_pos]

lemma stepBody_A :
    stepBody bpA pA sA0 =
      ({ t := step_t1 pA sA0, h := 100000, v := 0, m := 0, A := step_A bpA pA sA0,
         fragmented := true, airburstAltitude := some 100000,
         airburstEnergy := some (energyAtBreakup sA0),
         stepCount := 0, trajectory := [] }, true) := by
  rw [stepBody, if_pos ⟨le_of_eq step_m1_A, show (3000:ℝ) < pA.iv by norm_num [pA]⟩,
    step_h1_A, step_v1_A, step_fragmented_A, step_airburstAltitude_A, step_airburstEnergy_A]
  rfl

lemma finalState_A : finalState ecA bpA optsA 1 = (stepBody bpA pA sA0).1 := by
  rw [finalState, mkParams_A, initState_A, loopF,
    if_pos (show (0:ℝ) < sA0.h by norm_num [sA0])]
  show (if (stepBody bpA pA sA0).2 = true then (stepBody bpA pA sA0).1
        else loopF bpA pA 0 (stepBody bpA pA sA0).1) = (stepBody bpA pA sA0).1
  split <;> rfl

lemma runA_airburst : (integrateTrajectory ecA bpA optsA 1).impact.airburst = true := by
  rw [impact_airburst_eq, finalState_A, stepBody_A]
  simp only [Bool.and_eq_true, decide_eq_true_eq]
  refine ⟨⟨by trivial, by norm_num⟩, ?_⟩
  rw [energyAtBreakup]
  norm_num [sA0]

/-- Witness for C3: on the run-A inputs the airburst flag is set, the
recorded airburst energy is the (positive) kinetic energy at breakup, and
the fragmentation step indeed had both speeds above 1000 m/s. -/
theorem integrateTrajectory_airburst_conditions_witness :
    ((integrateTrajectory ecA bpA optsA 1).impact.airburstEnergy =
        some (energyAtBreakup sA0) ∧ 0 < energyAtBreakup sA0) ∧
    (1000 < sA0.v ∧ 1000 < pA.iv) := by
  constructor
  · obtain ⟨e, he, hpos⟩ :=
      integrateTrajectory_airburst_conditions.1 ecA bpA optsA 1 runA_airburst
    have heq : (integrateTrajectory ecA bpA optsA 1).impact.airburstEnergy =
        some (energyAtBreakup sA0) := by
      rw [impact_airburstEnergy_eq, finalState_A, stepBody_A]
    rw [heq] at he
    cases he
    exact ⟨heq, hpos⟩
  · exact integrateTrajectory_airburst_conditions.2 bpA pA sA0 rfl
      (by rw [stepBody_A])

/-! ### A fragmenting run that reaches the ground (run B)

With a 100 s timestep and a negligible drag coefficient, a 1 km/s-scale
body fragments at 100 km, ablates away completely, and still crosses the
ground in the same (single) Euler step. -/

lemma mkParams_B : mkParams ecB optsB = pB := by
  simp only [mkParams, resolveDt, resolveLambda, resolveQ, resolveCd, resolveFragMult,
    resolveRecordTrajectory, resolveRecordInterval, jsOrNum, jsOrNat, optsB, ecB, pB,
    LAMBDA, Q_ABLATION]
  norm_num

lemma initState_B : initState ecB bpA pB = sB0 := rfl

lemma fragFire_B : fragFire bpA pB sB0 := by
  refine ⟨rfl, by norm_num [sB0], by norm_num [pB], ?_⟩
  show (1:ℝ) ≤ 0.5 * atmosphericDensity 100000 * 1e6 * 1e6
  nlinarith [rho100000_lb]

lemma step_A_B : step_A bpA pB sB0 = 3 := by
  rw [step_A, if_pos fragFire_B]
  norm_num [sB0, pB]

lemma step_m1_B : step_m1 bpA pB sB0 = 0 := by
  rw [step_m1, if_pos (show (3000:ℝ) < sB0.v by norm_num [sB0]), step_A_B]
  apply max_eq_left
  show (1:ℝ) + -(0.7 * 3 / (2 * 8e6)) * atmosphericDensity 100000 * 1e6 * 1e6 * 1e6 * 100 ≤ 0
  nlinarith [rho100000_lb]

lemma v_new_B_lb : 1000 ≤ v_new bpA pB sB0 := by
  rw [v_new, totalAccel, dragAccel, gravAccel, step_A_B]
  show (1000:ℝ) ≤ 1e6 + (-(1e-20 * 3 / (2 * 1)) * atmosphericDensity 100000 * 1e6 * 1e6 +
      -GRAVITY * Real.sin pB.gamma) * 100
  have hs : Real.sin pB.gamma = 1 := sin_toRadians_90
  rw [hs, GRAVITY]
  nlinarith [atmosphericDensity_le 100000, atmosphericDensity_pos 100000]

lemma step_v1_B : step_v1 bpA pB sB0 = v_new bpA pB sB0 := by
  rw [step_v1, if_neg]
  · exact max_eq_right (by linarith [v_new_B_lb])
  · rintro ⟨h1, -, -⟩
    rw [MIN_VELOCITY] at h1
    linarith [v_new_B_lb]

lemma step_h1_B_le : step_h1 bpA pB sB0 ≤ 0 := by
  rw [step_h1, step_v1_B]
  have hs : Real.sin pB.gamma = 1 := sin_toRadians_90
  rw [hs]
  show (100000:ℝ) - v_new bpA pB sB0 * 1 * 100 ≤ 0
  nlinarith [v_new_B_lb]

lemma step_fragmented_B : step_fragmented bpA pB sB0 = true := by
  rw [step_fragmented, if_pos fragFire_B]

lemma step_airburstAltitude_B : step_airburstAltitude bpA pB sB0 = some 100000 := by
  rw [step_airburstAltitude, if_pos fragFire_B]
  rfl

lemma step_airburstEnergy_B :
    step_airburstEnergy bpA pB sB0 = some (energyAtBreakup sB0) := by
  rw [step_airburstEnergy, if_pos fragFire_B, if_pos]
  rw [energyAtBreakup]
  norm_num [sB0]

lemma stepBody_B :
    stepBody bpA pB sB0 =
      ({ t := step_t1 pB sB0, h := step_h1 bpA pB sB0, v := step_v1 bpA pB sB0, m := 0,
         A := step_A bpA pB sB0, fragmented := true, airburstAltitude := some 100000,
         airburstEnergy := some (energyAtBreakup sB0),
         stepCount := 0, trajectory := [] }, true) := by
  rw [stepBody, if_pos ⟨le_of_eq step_m1_B, show (3000:ℝ) < pB.iv by norm_num [pB]⟩,
    step_fragmented_B, step_airburstAltitude_B, step_airburstEnergy_B]
  rfl

lemma finalState_B : finalState ecB bpA optsB 1 = (stepBody bpA pB sB0).1 := by
  rw [finalState, mkParams_B, initState_B, loopF,
    if_pos (show (0:ℝ) < sB0.h by norm_num [sB0])]
  show (if (stepBody bpA pB sB0).2 = true then (stepBody bpA pB sB0).1
        else loopF bpA pB 0 (stepBody bpA pB sB0).1) = (stepBody bpA pB sB0).1
  split <;> rfl

/-! ### A ground impact with complete ablation (run C)

The same run as B but with an enormous material strength: the body never
fragments, yet ablation exhausts its mass in the very Euler step that
crosses the ground, so the summary reports `groundImpact = true` and
`mass = 0` together. -/

lemma initState_C : initState ecB bpC pB = sB0 := rfl

lemma fragFire_C : ¬ fragFire bpC pB sB0 := by
  rintro ⟨-, -, -, h4⟩
  have hq : step_q sB0 ≤ 0.5 * 1.225 * 1e6 * 1e6 := by
    show 0.5 * atmosphericDensity 100000 * 1e6 * 1e6 ≤ 0.5 * 1.225 * 1e6 * 1e6
    nlinarith [atmosphericDensity_le 100000]
  have hs : bpC.strength = 1e30 := rfl
  rw [hs] at h4
  nlinarith

lemma step_A_C : step_A bpC pB sB0 = 1 := by
  rw [step_A, if_neg fragFire_C]
  rfl

lemma step_m1_C : step_m1 bpC pB sB0 = 0 := by
  rw [step_m1, if_pos (show (3000:ℝ) < sB0.v by norm_num [sB0]), step_A_C]
  apply max_eq_left
  show (1:ℝ) + -(0.7 * 1 / (2 * 8e6)) * atmosphericDensity 100000 * 1e6 * 1e6 * 1e6 * 100 ≤ 0
  nlinarith [rho100000_lb]

lemma v_new_C_lb : 1000 ≤ v_new bpC pB sB0 := by
  rw [v_new, totalAccel, dragAccel, gravAccel, step_A_C]
  show (1000:ℝ) ≤ 1e6 + (-(1e-20 * 1 / (2 * 1)) * atmosphericDensity 100000 * 1e6 * 1e6 +
      -GRAVITY * Real.sin pB.gamma) * 100
  have hs : Real.sin pB.gamma = 1 := sin_toRadians_90
  rw [hs, GRAVITY]
  nlinarith [atmosphericDensity_le 100000, atmosphericDensity_pos 100000]

lemma step_v1_C : step_v1 bpC pB sB0 = v_new bpC pB sB0 := by
  rw [step_v1, if_neg]
  · exact max_eq_right (by linarith [v_new_C_lb])
  · rintro ⟨h1, -, -⟩
    rw [MIN_VELOCITY] at h1
    linarith [v_new_C_lb]

lemma step_h1_C_le : step_h1 bpC pB sB0 ≤ 0 := by
  rw [step_h1, step_v1_C]
  have hs : Real.sin pB.gamma = 1 := sin_toRadians_90
  rw [hs]
  show (100000:ℝ) - v_new bpC pB sB0 * 1 * 100 ≤ 0
  nlinarith [v_new_C_lb]

lemma stepBody_C :
    stepBody bpC pB sB0 =
      ({ t := step_t1 pB sB0, h := step_h1 bpC pB sB0, v := step_v1 bpC pB sB0, m := 0,
         A := step_A bpC pB sB0, fragmented := false, airburstAltitude := none,
         airburstEnergy := none, stepCount := 0, trajectory := [] }, true) := by
  rw [stepBody, if_pos ⟨le_of_eq step_m1_C, show (3000:ℝ) < pB.iv by norm_num [pB]⟩]
  rw [show step_fragmented bpC pB sB0 = false from by
      rw [step_fragmented, if_neg fragFire_C]; rfl,
    show step_airburstAltitude bpC pB sB0 = none from by
      rw [step_airburstAltitude, if_neg fragFire_C]; rfl,
    show step_airburstEnergy bpC pB sB0 = none from by
      rw [step_airburstEnergy, if_neg fragFire_C]; rfl]
  rfl

lemma finalState_C : finalState ecB bpC optsB 1 = (stepBody bpC pB sB0).1 := by
  rw [finalState, mkParams_B, initState_C, loopF,
    if_pos (show (0:ℝ) < sB0.h by norm_num [sB0])]
  show (if (stepBody bpC pB sB0).2 = true then (stepBody bpC pB sB0).1
        else loopF bpC pB 0 (stepBody bpC pB sB0).1) = (stepBody bpC pB sB0).1
  split <;> rfl

/-! ### Claim C4 -/

lemma stepBody_fst_airburstAltitude (bp : BodyProperties) (p : LoopParams) (s : SimState) :
    (stepBody bp p s).1.airburstAltitude = step_airburstAltitude bp p s := by
  rw [stepBody]
  split <;> rfl

/-- Fragmentation records the current altitude, which is positive because
the loop only runs while `h > 0`; once recorded it is never overwritten. -/
lemma stepBody_airburstAltitude_pos (bp : BodyProperties) (p : LoopParams) (s : SimState)
    (hh : 0 < s.h) (hs : ∀ a, s.airburstAltitude = some a → 0 < a) :
    ∀ a, (stepBody bp p s).1.airburstAltitude = some a → 0 < a := by
  intro a ha
  rw [stepBody_fst_airburstAltitude, step_airburstAltitude] at ha
  by_cases hf : fragFire bp p s
  · rw [if_pos hf] at ha
    cases ha
    exact hh
  · rw [if_neg hf] at ha
    exact hs a ha

lemma loopF_airburstAltitude_pos (bp : BodyProperties) (p : LoopParams) :
    ∀ (n : ℕ) (s : SimState), (∀ a, s.airburstAltitude = some a → 0 < a) →
      ∀ a, (loopF bp p n s).airburstAltitude = some a → 0 < a := by
  intro n
  induction n with
  | zero => intro s hs; exact hs
  | succ n ih =>
    intro s hs
    rw [loopF]
    by_cases hh : 0 < s.h
    · rw [if_pos hh]
      by_cases hb : (stepBody bp p s).2
      · simp only [hb, if_true]
        exact stepBody_airburstAltitude_pos bp p s hh hs
      · simp only [hb, if_false, Bool.false_eq_true]
        exact ih _ (stepBody_airburstAltitude_pos bp p s hh hs)
    · rw [if_neg hh]
      exact hs

/-- C4: whenever the impact summary carries an `airburstAltitude` and the
run ended in ground contact (final altitude at most 0), the recorded
airburst altitude is strictly above the final altitude. -/
theorem airburstAltitude_above_final (ec : EntryConditions) (bp : BodyProperties)
    (opts : IntegrationOptions) (fuel : ℕ) (a : ℝ)
    (ha : (integrateTrajectory ec bp opts fuel).impact.airburstAltitude = some a)
    (hg : (integrateTrajectory ec bp opts fuel).impact.altitude ≤ 0) :
    (integrateTrajectory ec bp opts fuel).impact.altitude < a := by
  rw [impact_airburstAltitude_eq] at ha
  rw [impact_altitude_eq] at hg ⊢
  have h0 : ∀ b, (initState ec bp (mkParams ec opts)).airburstAltitude = some b → 0 < b := by
    intro b hb
    exact absurd hb (by simp [initState])
  have := loopF_airburstAltitude_pos bp (mkParams ec opts) fuel _ h0 a ha
  linarith

/-- Witness for C4: on run B the body fragments at 100 km and then hits
the ground, so the final altitude lies strictly below the recorded
airburst altitude. -/
theorem airburstAltitude_above_final_witness :
    (integrateTrajectory ecB bpA optsB 1).impact.altitude < 100000 := by
  apply airburstAltitude_above_final ecB bpA optsB 1 100000
  · rw [impact_airburstAltitude_eq, finalState_B, stepBody_B]
  · rw [impact_altitude_eq, finalState_B, stepBody_B]
    exact step_h1_B_le

/-! ### Claim C5 -/

/-- C5 counterexample: on run C the integrator returns an impact summary
with `groundImpact = true` and `mass = 0` simultaneously — ablation
exhausts the mass in the very integration step that crosses the ground,
so the two "terminal states" are not mutually exclusive. -/
theorem groundImpact_and_zero_mass_coexist :
    (integrateTrajectory ecB bpC optsB 1).impact.groundImpact = true ∧
    (integrateTrajectory ecB bpC optsB 1).impact.mass = 0 := by
  constructor
  · rw [impact_groundImpact_eq, finalState_C, stepBody_C]
    rw [decide_eq_true_eq]
    exact step_h1_C_le
  · rw [impact_mass_eq, finalState_C, stepBody_C]

/-! ### The mass invariant of the integration loop

`MInv` is maintained by every loop iteration (for physically valid,
non-negative parameters): the mass stays within `[0, initial mass]`, the
recorded trajectory masses are non-increasing, and every recorded mass
dominates the current one.  For entries at or below the 3000 m/s ablation
threshold the mass never changes at all, which also shows the low-speed
mass reset (part_005 lines 319-321) is dead code under these
preconditions and in particular never increases the mass. -/

lemma stepBody_inv (bp : BodyProperties) (p : LoopParams)
    (hm : 0 < bp.mass) (hdt : 0 ≤ p.dt) (hlam : 0 ≤ p.lambda) (hQ : 0 < p.Q)
    (hCd : 0 ≤ p.Cd) (hfm : 0 ≤ p.fragMult) (hsin : 0 ≤ Real.sin p.gamma)
    (s : SimState) (hinv : MInv bp s) (hsm : 0 < s.m)
    (hlow : p.iv ≤ 3000 → s.m = bp.mass ∧ s.v ≤ max p.iv 200) :
    MInv bp (stepBody bp p s).1 ∧
    ((stepBody bp p s).2 = false → 0 < (stepBody bp p s).1.m) ∧
    (p.iv ≤ 3000 →
      (stepBody bp p s).1.m = bp.mass ∧ (stepBody bp p s).1.v ≤ max p.iv 200 ∧
      0 < (stepBody bp p s).1.m) := by
  obtain ⟨h0m, hmM, h0v, h0A, hpw, hall⟩ := hinv
  have hA' : 0 ≤ step_A bp p s := by
    rw [step_A]
    split
    · exact mul_nonneg h0A hfm
    · exact h0A
  have hrho : 0 < step_rho s := atmosphericDensity_pos s.h
  have habl : 0 ≤ p.lambda * step_A bp p s / (2 * p.Q) * step_rho s * s.v * s.v * s.v * p.dt := by
    have h1 : 0 ≤ p.lambda * step_A bp p s / (2 * p.Q) :=
      div_nonneg (mul_nonneg hlam hA') (by linarith)
    exact mul_nonneg (mul_nonneg (mul_nonneg (mul_nonneg (mul_nonneg h1 hrho.le) h0v) h0v) h0v) hdt
  have hm1_le : step_m1 bp p s ≤ s.m := by
    rw [step_m1]
    split
    · apply max_le h0m
      nlinarith [habl]
    · exact le_refl s.m
  have hm1_0 : 0 ≤ step_m1 bp p s := by
    rw [step_m1]
    split
    · exact le_max_left 0 _
    · exact h0m
  have hv1_0 : 0 ≤ step_v1 bp p s := by
    rw [step_v1]
    split
    · exact le_min (Real.sqrt_nonneg _) (by norm_num)
    · exact le_max_left 0 _
  have hdrag : dragAccel bp p s ≤ 0 := by
    rw [dragAccel]
    have hc : 0 ≤ p.Cd * step_A bp p s / (2 * s.m) :=
      div_nonneg (mul_nonneg hCd hA') (by linarith)
    have := mul_nonneg (mul_nonneg (mul_nonneg hc hrho.le) h0v) h0v
    linarith
  have hgrav : gravAccel p ≤ 0 := by
    rw [gravAccel, GRAVITY]
    have := mul_nonneg (show (0:ℝ) ≤ 9.81 by norm_num) hsin
    linarith
  have htot : totalAccel bp p s ≤ 0 := by
    rw [totalAccel]
    linarith
  have hvnew_le : v_new bp p s ≤ s.v := by
    rw [v_new]
    nlinarith [mul_nonneg (neg_nonneg.mpr htot) hdt]
  have hlowstep : p.iv ≤ 3000 → step_m1 bp p s = s.m ∧ step_v1 bp p s ≤ max p.iv 200 := by
    intro hl
    obtain ⟨hms, hvs⟩ := hlow hl
    have hvle : s.v ≤ 3000 := hvs.trans (max_le hl (by norm_num))
    refine ⟨by rw [step_m1, if_neg (not_lt.mpr hvle)], ?_⟩
    rw [step_v1]
    split
    · exact (min_le_right _ _).trans (le_max_right _ _)
    · exact max_le ((by norm_num : (0:ℝ) ≤ 200).trans (le_max_right _ _)) (hvnew_le.trans hvs)
  by_cases hbr : step_m1 bp p s ≤ 0 ∧ 3000 < p.iv
  · have heq : stepBody bp p s =
        ({ t := step_t1 p s, h := step_h1 bp p s, v := step_v1 bp p s, m := 0,
           A := step_A bp p s, fragmented := step_fragmented bp p s,
           airburstAltitude := step_airburstAltitude bp p s,
           airburstEnergy := step_airburstEnergy bp p s,
           stepCount := s.stepCount, trajectory := s.trajectory }, true) := by
      rw [stepBody, if_pos hbr]
    refine ⟨?_, ?_, ?_⟩
    · rw [heq]
      exact ⟨le_refl 0, le_of_lt hm, hv1_0, hA', hpw,
        fun st hst => (le_of_lt hsm).trans (hall st hst)⟩
    · rw [heq]
      intro hcon
      exact absurd hcon (by simp)
    · intro hl
      exact absurd hbr.2 (not_lt.mpr hl)
  · have hreset_false : ¬ (step_m1 bp p s ≤ 0 ∧ p.iv ≤ 3000) := by
      rintro ⟨hle, hiv⟩
      have h1 := (hlowstep hiv).1
      rw [h1] at hle
      linarith
    have hm1pos : 0 < step_m1 bp p s := by
      rcases le_or_lt (step_m1 bp p s) 0 with hle | hlt
      · exfalso
        rcases le_or_lt p.iv 3000 with hiv | hiv
        · exact hreset_false ⟨hle, hiv⟩
        · exact hbr ⟨hle, hiv⟩
      · exact hlt
    have heq : stepBody bp p s =
        ({ t := step_t1 p s, h := step_h1 bp p s, v := step_v1 bp p s,
           m := step_m1 bp p s,
           A := step_A bp p s, fragmented := step_fragmented bp p s,
           airburstAltitude := step_airburstAltitude bp p s,
           airburstEnergy := step_airburstEnergy bp p s,
           stepCount := s.stepCount + 1,
           trajectory :=
             if p.recordTrajectory = true ∧ s.stepCount % p.recordInterval = 0 then
               s.trajectory ++
                 [{ time := step_t1 p s, altitude := step_h1 bp p s,
                    velocity := step_v1 bp p s, mass := step_m1 bp p s,
                    angle := p.gamma, q := step_q s, rho := step_rho s,
                    fragmented := step_fragmented bp p s }]
             else s.trajectory },
         decide (1800 < step_t1 p s)) := by
      rw [stepBody, if_neg hbr, if_neg hreset_false]
    refine ⟨?_, ?_, ?_⟩
    · rw [heq]
      refine ⟨hm1_0, hm1_le.trans hmM, hv1_0, hA', ?_, ?_⟩
      · show ((if p.recordTrajectory = true ∧ s.stepCount % p.recordInterval = 0 then
            s.trajectory ++ [_] else s.trajectory).map fun st => st.mass).Pairwise _
        split
        · rw [List.map_append]
          refine List.pairwise_append.mpr ⟨hpw, by simp, ?_⟩
          intro a ha b hb
          simp only [List.map_cons, List.map_nil, List.mem_singleton] at hb
          obtain ⟨st, hst, rfl⟩ := List.mem_map.mp ha
          rw [hb]
          exact hm1_le.trans (hall st hst)
        · exact hpw
      · show ∀ st ∈ (if p.recordTrajectory = true ∧ s.stepCount % p.recordInterval = 0 then
            s.trajectory ++ [_] else s.trajectory), step_m1 bp p s ≤ st.mass
        split
        · intro st hst
          rcases List.mem_append.mp hst with hmem | hmem
          · exact hm1_le.trans (hall st hmem)
          · rw [List.mem_singleton] at hmem
            rw [hmem]
        · intro st hst
          exact hm1_le.trans (hall st hst)
    · rw [heq]
      intro
      exact hm1pos
    · intro hl
      rw [heq]
      refine ⟨?_, (hlowstep hl).2, hm1pos⟩
      show step_m1 bp p s = bp.mass
      rw [(hlowstep hl).1]
      exact (hlow hl).1

lemma loopF_inv (bp : BodyProperties) (p : LoopParams)
    (hm : 0 < bp.mass) (hdt : 0 ≤ p.dt) (hlam : 0 ≤ p.lambda) (hQ : 0 < p.Q)
    (hCd : 0 ≤ p.Cd) (hfm : 0 ≤ p.fragMult) (hsin : 0 ≤ Real.sin p.gamma) :
    ∀ (n : ℕ) (s : SimState), MInv bp s → 0 < s.m →
      (p.iv ≤ 3000 → s.m = bp.mass ∧ s.v ≤ max p.iv 200) →
      MInv bp (loopF bp p n s) ∧ (p.iv ≤ 3000 → (loopF bp p n s).m = bp.mass) := by
  intro n
  induction n with
  | zero =>
    intro s hinv hsm hlow
    exact ⟨hinv, fun hl => (hlow hl).1⟩
  | succ n ih =>
    intro s hinv hsm hlow
    rw [loopF]
    by_cases hh : 0 < s.h
    · rw [if_pos hh]
      obtain ⟨hstep1, hstep2, hstep3⟩ :=
        stepBody_inv bp p hm hdt hlam hQ hCd hfm hsin s hinv hsm hlow
      by_cases hb : (stepBody bp p s).2 = true
      · rw [if_pos hb]
        exact ⟨hstep1, fun hl => (hstep3 hl).1⟩
      · rw [if_neg hb]
        have hb' : (stepBody bp p s).2 = false := by
          rcases Bool.eq_false_or_eq_true (stepBody bp p s).2 with h | h
          · exact absurd h hb
          · exact h
        exact ih _ hstep1 (hstep2 hb') (fun hl => ⟨(hstep3 hl).1, (hstep3 hl).2.1⟩)
    · rw [if_neg hh]
      exact ⟨hinv, fun hl => (hlow hl).1⟩

lemma result_trajectory_eq (ec : EntryConditions) (bp : BodyProperties)
    (opts : IntegrationOptions) (fuel : ℕ) :
    (integrateTrajectory ec bp opts fuel).trajectory =
      (if (mkParams ec opts).recordTrajectory = true then
        (finalState ec bp opts fuel).trajectory ++
          [{ time := (finalState ec bp opts fuel).t,
             altitude := (finalState ec bp opts fuel).h,
             velocity := (finalState ec bp opts fuel).v,
             mass := (finalState ec bp opts fuel).m,
             angle := (mkParams ec opts).gamma,
             q := dynamicPressure (atmosphericDensity (finalState ec bp opts fuel).h)
                    (finalState ec bp opts fuel).v,
             rho := atmosphericDensity (finalState ec bp opts fuel).h,
             fragmented := (finalState ec bp opts fuel).fragmented }]
      else (finalState ec bp opts fuel).trajectory) := rfl

/-- The initial state satisfies the mass invariant. -/
lemma initState_MInv (ec : EntryConditions) (bp : BodyProperties) (p : LoopParams)
    (hm : 0 < bp.mass) (hA0 : 0 ≤ bp.area) (hv0 : 0 ≤ ec.velocity) :
    MInv bp (initState ec bp p) := by
  refine ⟨le_of_lt hm, le_refl _, hv0, hA0, ?_, ?_⟩
  · simp only [initState]
    split <;> simp
  · simp only [initState]
    split
    · intro st hst
      rw [List.mem_singleton] at hst
      rw [hst]
    · intro st hst
      exact absurd hst (List.not_mem_nil st)

/-! ### Claim C2 -/

/-- C2: for inputs satisfying the documented preconditions (positive
diameter and density, non-negative `vInfinity`, entry angle in (0, 90],
and non-negative resolved options), the impact summary's `massFraction`
lies in `[0, 1]` and the masses recorded at successive integration steps
are non-increasing. -/
theorem integrateTrajectory_massFraction (diameter : ℝ) (mat : Material)
    (vInfinity entryAngleDeg : ℝ) (opts : IntegrationOptions) (fuel : ℕ)
    (hd : 0 < diameter) (hden : 0 < mat.density) (hv : 0 ≤ vInfinity)
    (ha1 : 0 < entryAngleDeg) (ha2 : entryAngleDeg ≤ 90)
    (hdt : 0 ≤ resolveDt opts) (hlam : 0 ≤ resolveLambda opts) (hQ : 0 < resolveQ opts)
    (hCd : 0 ≤ resolveCd opts) (hfm : 0 ≤ resolveFragMult opts) :
    0 ≤ (integrateTrajectory (calculateEntryConditions vInfinity entryAngleDeg)
          (calculateBodyProperties diameter mat) opts fuel).impact.massFraction ∧
    (integrateTrajectory (calculateEntryConditions vInfinity entryAngleDeg)
          (calculateBodyProperties diameter mat) opts fuel).impact.massFraction ≤ 1 ∧
    ((integrateTrajectory (calculateEntryConditions vInfinity entryAngleDeg)
          (calculateBodyProperties diameter mat) opts fuel).trajectory.map
        fun st => st.mass).Chain' (fun a b => b ≤ a) := by
  have hp := Real.pi_pos
  have h2 : 0 < diameter / 2 := by linarith
  have hm : 0 < (calculateBodyProperties diameter mat).mass := by
    show 0 < mat.density *
      ((4 / 3) * Real.pi * (diameter / 2) * (diameter / 2) * (diameter / 2))
    exact mul_pos hden
      (mul_pos (mul_pos (mul_pos (mul_pos (by norm_num : (0:ℝ) < 4 / 3) hp) h2) h2) h2)
  have hA0 : 0 ≤ (calculateBodyProperties diameter mat).area := by
    show 0 ≤ Real.pi * (diameter / 2) * (diameter / 2)
    exact le_of_lt (mul_pos (mul_pos hp h2) h2)
  have hsin : 0 ≤
      Real.sin (mkParams (calculateEntryConditions vInfinity entryAngleDeg) opts).gamma := by
    apply Real.sin_nonneg_of_nonneg_of_le_pi
    · show 0 ≤ entryAngleDeg * Real.pi / 180
      exact div_nonneg (mul_nonneg ha1.le hp.le) (by norm_num)
    · show entryAngleDeg * Real.pi / 180 ≤ Real.pi
      rw [div_le_iff (by norm_num : (0:ℝ) < 180)]
      nlinarith [mul_nonneg (by linarith : (0:ℝ) ≤ 180 - entryAngleDeg) hp.le]
  have hiv0 : 0 ≤ (calculateEntryConditions vInfinity entryAngleDeg).velocity := by
    show 0 ≤ (if vInfinity < 3 then vInfinity
      else Real.sqrt (vInfinity * vInfinity + V_ESCAPE_EARTH * V_ESCAPE_EARTH)) * 1000
    have hb : 0 ≤ (if vInfinity < 3 then vInfinity
        else Real.sqrt (vInfinity * vInfinity + V_ESCAPE_EARTH * V_ESCAPE_EARTH)) := by
      split
      · exact hv
      · exact Real.sqrt_nonneg _
    exact mul_nonneg hb (by norm_num)
  obtain ⟨hfin, -⟩ :=
    loopF_inv (calculateBodyProperties diameter mat)
      (mkParams (calculateEntryConditions vInfinity entryAngleDeg) opts)
      hm hdt hlam hQ hCd hfm hsin fuel _
      (initState_MInv _ _ _ hm hA0 hiv0) hm (fun _ => ⟨rfl, le_max_left _ _⟩)
  obtain ⟨h0m, hmM, -, -, hpwF, hallF⟩ := hfin
  refine ⟨?_, ?_, ?_⟩
  · rw [impact_massFraction_eq]
    exact div_nonneg h0m hm.le
  · rw [impact_massFraction_eq]
    exact (div_le_one hm).mpr hmM
  · rw [result_trajectory_eq]
    split
    · rw [List.map_append]
      apply List.Pairwise.chain'
      refine List.pairwise_append.mpr ⟨hpwF, by simp, ?_⟩
      intro a ha b hb
      simp only [List.map_cons, List.map_nil, List.mem_singleton] at hb
      obtain ⟨st, hst, rfl⟩ := List.mem_map.mp ha
      rw [hb]
      exact hallF st hst
    · exact hpwF.chain'

/-- Witness for C2: a 50 m stony body entering at 15 km/s and 45 degrees
with default options. -/
theorem integrateTrajectory_massFraction_witness :
    0 ≤ (integrateTrajectory (calculateEntryConditions 15 45)
          (calculateBodyProperties 50 { density := 3000, strength := 2e5, name := none })
          optsA 100).impact.massFraction ∧
    (integrateTrajectory (calculateEntryConditions 15 45)
          (calculateBodyProperties 50 { density := 3000, strength := 2e5, name := none })
          optsA 100).impact.massFraction ≤ 1 ∧
    ((integrateTrajectory (calculateEntryConditions 15 45)
          (calculateBodyProperties 50 { density := 3000, strength := 2e5, name := none })
          optsA 100).trajectory.map fun st => st.mass).Chain' (fun a b => b ≤ a) :=
  integrateTrajectory_massFraction 50 { density := 3000, strength := 2e5, name := none }
    15 45 optsA 100 (by norm_num) (by norm_num) (by norm_num) (by norm_num) (by norm_num)
    (show (0:ℝ) ≤ 0.05 by norm_num) (show (0:ℝ) ≤ 0.7 by norm_num)
    (show (0:ℝ) < 8e6 by norm_num) (show (0:ℝ) ≤ 1.0 by norm_num)
    (show (0:ℝ) ≤ 3 by norm_num)

/-- C5 (amended): complete ablation requires the entry speed to exceed
the 3000 m/s ablation threshold; a body entering at or below it keeps its
entire mass, so for such runs `groundImpact` and `mass = 0` are indeed
mutually exclusive.  (For ablative entries the counterexample shows the
two terminal states can coincide when the mass reaches zero in the
ground-crossing step.) -/
theorem groundImpact_excludes_zero_mass_low (ec : EntryConditions) (bp : BodyProperties)
    (opts : IntegrationOptions) (fuel : ℕ)
    (hm : 0 < bp.mass) (hA0 : 0 ≤ bp.area) (hv0 : 0 ≤ ec.velocity)
    (hsin : 0 ≤ Real.sin (toRadians ec.angle))
    (hdt : 0 ≤ resolveDt opts) (hlam : 0 ≤ resolveLambda opts) (hQ : 0 < resolveQ opts)
    (hCd : 0 ≤ resolveCd opts) (hfm : 0 ≤ resolveFragMult opts)
    (hlow : ec.velocity ≤ 3000) :
    (integrateTrajectory ec bp opts fuel).impact.mass = bp.mass ∧
    ¬ ((integrateTrajectory ec bp opts fuel).impact.groundImpact = true ∧
       (integrateTrajectory ec bp opts fuel).impact.mass = 0) := by
  obtain ⟨-, hfull⟩ :=
    loopF_inv bp (mkParams ec opts) hm hdt hlam hQ hCd hfm hsin fuel _
      (initState_MInv _ _ _ hm hA0 hv0) hm (fun _ => ⟨rfl, le_max_left _ _⟩)
  have hmass : (integrateTrajectory ec bp opts fuel).impact.mass = bp.mass := by
    rw [impact_mass_eq]
    exact hfull hlow
  refine ⟨hmass, ?_⟩
  rintro ⟨-, h0⟩
  rw [hmass] at h0
  exact absurd h0 (ne_of_gt hm)

/-! ### Claim C6: termination of the integration loop

Simulated time grows by `dt` every iteration and the loop breaks once it
exceeds the 1800 s safety cutoff, so with a positive timestep the fuelled
loop stabilises after at most `⌊1800 / dt⌋ + 2` iterations: adding any
amount of extra fuel leaves the run unchanged. -/

lemma stepBody_fst_t (bp : BodyProperties) (p : LoopParams) (s : SimState) :
    (stepBody bp p s).1.t = step_t1 p s := by
  rw [stepBody]
  split <;> rfl

lemma stepBody_snd_true_of_t (bp : BodyProperties) (p : LoopParams) (s : SimState)
    (ht : 1800 < step_t1 p s) : (stepBody bp p s).2 = true := by
  rw [stepBody]
  split
  · rfl
  · show decide (1800 < step_t1 p s) = true
    exact decide_eq_true ht

lemma loopF_stable (bp : BodyProperties) (p : LoopParams) (hdt : 0 < p.dt) :
    ∀ (fuel : ℕ) (s : SimState), 1800 < s.t + fuel * p.dt →
      ∀ extra : ℕ, loopF bp p (extra + fuel + 1) s = loopF bp p (fuel + 1) s := by
  intro fuel
  induction fuel with
  | zero =>
    intro s ht extra
    push_cast at ht
    rw [Nat.add_zero]
    by_cases hh : 0 < s.h
    · rw [loopF, loopF, if_pos hh, if_pos hh]
      have hsnd : (stepBody bp p s).2 = true := by
        apply stepBody_snd_true_of_t
        rw [step_t1]
        linarith
      rw [if_pos hsnd, if_pos hsnd]
    · rw [loopF, loopF, if_neg hh, if_neg hh]
  | succ fuel ih =>
    intro s ht extra
    by_cases hh : 0 < s.h
    · rw [loopF, loopF, if_pos hh, if_pos hh]
      by_cases hb : (stepBody bp p s).2 = true
      · rw [if_pos hb, if_pos hb]
      · rw [if_neg hb, if_neg hb]
        have harg : extra + (fuel + 1) = extra + fuel + 1 := by omega
        rw [harg]
        apply ih
        rw [stepBody_fst_t, step_t1]
        push_cast at ht ⊢
        linarith
    · rw [loopF, loopF, if_neg hh, if_neg hh]

lemma integrateTrajectory_fuel_congr (ec : EntryConditions) (bp : BodyProperties)
    (opts : IntegrationOptions) (n m : ℕ)
    (h : loopF bp (mkParams ec opts) n (initState ec bp (mkParams ec opts)) =
         loopF bp (mkParams ec opts) m (initState ec bp (mkParams ec opts))) :
    integrateTrajectory ec bp opts n = integrateTrajectory ec bp opts m := by
  simp only [integrateTrajectory]
  rw [h]

/-- C6: with a positive resolved timestep (`dt` unset, defaulting to
0.05 s, or supplied positive), the trajectory integrator terminates: the
loop is exhausted within `⌊1800 / dt⌋ + 2` iterations, after which any
extra fuel leaves the entire result unchanged. -/
theorem integrateTrajectory_terminates (ec : EntryConditions) (bp : BodyProperties)
    (opts : IntegrationOptions) (hdt : 0 < resolveDt opts) :
    ∀ extra : ℕ,
      integrateTrajectory ec bp opts
          (extra + (Nat.floor ((1800:ℝ) / resolveDt opts) + 2)) =
        integrateTrajectory ec bp opts (Nat.floor ((1800:ℝ) / resolveDt opts) + 2) := by
  intro extra
  have hdt' : 0 < (mkParams ec opts).dt := hdt
  have hflt : 1800 < (initState ec bp (mkParams ec opts)).t +
      ((Nat.floor ((1800:ℝ) / resolveDt opts) + 1) : ℕ) * (mkParams ec opts).dt := by
    have h0 : (initState ec bp (mkParams ec opts)).t = 0 := rfl
    have hmk : (mkParams ec opts).dt = resolveDt opts := rfl
    rw [h0, hmk]
    have h1 : (1800:ℝ) / resolveDt opts <
        Nat.floor ((1800:ℝ) / resolveDt opts) + 1 := Nat.lt_floor_add_one _
    have h2 := (div_lt_iff hdt).mp h1
    push_cast
    linarith
  have hstab := loopF_stable bp (mkParams ec opts) hdt'
    (Nat.floor ((1800:ℝ) / resolveDt opts) + 1) (initState ec bp (mkParams ec opts))
    hflt extra
  have hX : extra + (Nat.floor ((1800:ℝ) / resolveDt opts) + 2) =
      extra + (Nat.floor ((1800:ℝ) / resolveDt opts) + 1) + 1 := by omega
  have hY : Nat.floor ((1800:ℝ) / resolveDt opts) + 2 =
      Nat.floor ((1800:ℝ) / resolveDt opts) + 1 + 1 := by omega
  rw [hX, hY]
  exact integrateTrajectory_fuel_congr ec bp opts _ _ hstab

/-- Witness for C6: with the default options (`dt = 0.05`) the run with
one unit of extra fuel equals the run at the stabilisation bound. -/
theorem integrateTrajectory_terminates_witness :
    integrateTrajectory ecW bpC optsA
        (1 + (Nat.floor ((1800:ℝ) / resolveDt optsA) + 2)) =
      integrateTrajectory ecW bpC optsA (Nat.floor ((1800:ℝ) / resolveDt optsA) + 2) :=
  integrateTrajectory_terminates ecW bpC optsA (show (0:ℝ) < 0.05 by norm_num) 1

/-! ### Claim C10: ordering of the blast radii -/

lemma rpow_pow_eq (b : ℝ) (hb : 0 ≤ b) (n : ℕ) (x : ℝ) (m : ℕ) (hx : (n:ℝ) * x = (m:ℝ)) :
    ((b ^ n : ℝ)) ^ x = b ^ m := by
  rw [← Real.rpow_natCast b n, ← Real.rpow_mul hb, hx, Real.rpow_natCast]

lemma rpow_1e9_13 : (1e9:ℝ) ^ ((1:ℝ) / 3) = 1000 := by
  rw [show (1e9:ℝ) = 10 ^ (9:ℕ) by norm_num,
    rpow_pow_eq 10 (by norm_num) 9 ((1:ℝ)/3) 3 (by push_cast; norm_num)]
  norm_num

lemma rpow_1e9_23 : (1e9:ℝ) ^ ((2:ℝ) / 3) = 1e6 := by
  rw [show (1e9:ℝ) = 10 ^ (9:ℕ) by norm_num,
    rpow_pow_eq 10 (by norm_num) 9 ((2:ℝ)/3) 6 (by push_cast; norm_num)]
  norm_num

lemma rpow_1e10_25 : (1e10:ℝ) ^ ((2:ℝ) / 5) = 10000 := by
  rw [show (1e10:ℝ) = 10 ^ (10:ℕ) by norm_num,
    rpow_pow_eq 10 (by norm_num) 10 ((2:ℝ)/5) 4 (by push_cast; norm_num)]
  norm_num

/-- At 1 Mt-kiloton yield (counterexample inputs) and 6789 m burst
altitude, both the 2 kPa and 20 kPa inverted ranges stay far above the
300 km cap. -/
lemma range_1e9_lb (p : ℝ) (hp : 0 < p) (hple : p ≤ 20000) :
    10000 ≤ rangeForOverpressure 1e9 6789 p := by
  have hterm : (1e10:ℝ) ≤ r_term 1e9 6789 p := by
    rw [r_term, rfo_denominator, p_1kt, alt_factor, rpow_1e9_23]
    have he : p / 1e6 * (1 + (6789:ℝ) / 6789) ^ 2 = p / 250000 := by ring
    rw [he]
    rw [div_div_eq_mul_div]
    have hd : (3.14e11:ℝ) * 250000 / 20000 ≤ 3.14e11 * 250000 / p :=
      div_le_div_of_nonneg_left (by norm_num) hp hple
    nlinarith
  have hden : 0 < rfo_denominator 1e9 6789 p := by
    rw [rfo_denominator, p_1kt, alt_factor, rpow_1e9_23]
    have h1 : 0 < p / 1e6 := by positivity
    nlinarith
  have hterm' : 0 < r_term 1e9 6789 p := by nlinarith
  rw [rangeForOverpressure, if_neg (not_le.mpr hp), if_neg (not_le.mpr hden),
    if_neg (not_le.mpr hterm'), yield_scale, rpow_1e9_13,
    show ((1:ℝ)/2.5) = (2:ℝ)/5 by norm_num]
  have hx : (1e10:ℝ) ^ ((2:ℝ)/5) ≤ r_term 1e9 6789 p ^ ((2:ℝ)/5) :=
    Real.rpow_le_rpow (by norm_num) hterm (by norm_num)
  rw [rpow_1e10_25] at hx
  have he : r_term 1e9 6789 p ^ ((2:ℝ)/5) * 1000 / 1000 = r_term 1e9 6789 p ^ ((2:ℝ)/5) := by
    ring
  rw [he]
  exact hx

/-- C10 counterexample: at `energy = 1e6` Mt and a 6789 m burst altitude
the 300 km cap (applied only to the window-breakage radius) makes
`radiusWindowBreak` strictly smaller than `radiusStructuralDamage`, so
the claimed ordering of the radii fails. -/
theorem blast_radii_order_violated :
    (estimateBlastEffects 1e6 6789).radiusWindowBreak <
      (estimateBlastEffects 1e6 6789).radiusStructuralDamage := by
  have hguard : ¬ ((1e6:ℝ) ≤ 0 ∨ (6789:ℝ) ≤ 0) := by
    push_neg
    norm_num
  have hWB : (estimateBlastEffects 1e6 6789).radiusWindowBreak =
      cappedWindowBreak 1e9 6789 := by
    rw [estimateBlastEffects, if_neg hguard]
    show cappedWindowBreak (1e6 * 1000) 6789 = cappedWindowBreak 1e9 6789
    norm_num
  have hSD : (estimateBlastEffects 1e6 6789).radiusStructuralDamage =
      (attenuated_radii 1e9 6789).2.1 := by
    rw [estimateBlastEffects, if_neg hguard]
    show (attenuated_radii (1e6 * 1000) 6789).2.1 = (attenuated_radii 1e9 6789).2.1
    norm_num
  have hatt : attenuated_radii 1e9 6789 = blast_radii 1e9 6789 := by
    rw [attenuated_radii, if_neg]
    norm_num
  have h2 : (10000:ℝ) ≤ rangeForOverpressure 1e9 6789 2000 :=
    range_1e9_lb 2000 (by norm_num) (by norm_num)
  have h20 : (10000:ℝ) ≤ rangeForOverpressure 1e9 6789 20000 :=
    range_1e9_lb 20000 (by norm_num) le_rfl
  rw [hWB, hSD, hatt, cappedWindowBreak, hatt, if_pos]
  · show (300:ℝ) < rangeForOverpressure 1e9 6789 20000
    linarith
  · show (300:ℝ) < rangeForOverpressure 1e9 6789 2000
    linarith

lemma r_term_anti (E a p₁ p₂ : ℝ) (hE : 0 < E) (ha : 0 < a)
    (hp1 : 0 < p₁) (h12 : p₁ ≤ p₂) :
    r_term E a p₂ ≤ r_term E a p₁ := by
  have hEp : 0 < E ^ ((2:ℝ)/3) := Real.rpow_pos_of_pos hE _
  have hb : (0:ℝ) < 1 + a / 6789 := by
    have := div_pos ha (by norm_num : (0:ℝ) < 6789)
    linarith
  have haf : 0 < alt_factor a := by
    rw [alt_factor]
    exact pow_pos hb 2
  have hden1 : 0 < rfo_denominator E a p₁ := by
    rw [rfo_denominator, p_1kt]
    exact mul_pos (div_pos hp1 hEp) haf
  have hdenle : rfo_denominator E a p₁ ≤ rfo_denominator E a p₂ := by
    rw [rfo_denominator, rfo_denominator, p_1kt, p_1kt]
    exact mul_le_mul_of_nonneg_right ((div_le_div_right hEp).mpr h12) haf.le
  rw [r_term, r_term]
  have := div_le_div_of_nonneg_left (by norm_num : (0:ℝ) ≤ 3.14e11) hden1 hdenle
  linarith

lemma rfo_denominator_pos (E a p : ℝ) (hE : 0 < E) (ha : 0 < a) (hp : 0 < p) :
    0 < rfo_denominator E a p := by
  have hEp : 0 < E ^ ((2:ℝ)/3) := Real.rpow_pos_of_pos hE _
  have hb : (0:ℝ) < 1 + a / 6789 := by
    have := div_pos ha (by norm_num : (0:ℝ) < 6789)
    linarith
  rw [rfo_denominator, p_1kt, alt_factor]
  exact mul_pos (div_pos hp hEp) (pow_pos hb 2)

/-- Away from the 10 m floor, the inverted Collins et al. range is
antitone in the overpressure threshold. -/
lemma rangeForOverpressure_anti (E a p₁ p₂ : ℝ) (hE : 0 < E) (ha : 0 < a)
    (hp1 : 0 < p₁) (h12 : p₁ ≤ p₂) (hterm2 : 0 < r_term E a p₂) :
    rangeForOverpressure E a p₂ ≤ rangeForOverpressure E a p₁ := by
  have hp2 : 0 < p₂ := lt_of_lt_of_le hp1 h12
  have hterm1 : 0 < r_term E a p₁ :=
    lt_of_lt_of_le hterm2 (r_term_anti E a p₁ p₂ hE ha hp1 h12)
  rw [rangeForOverpressure, rangeForOverpressure,
    if_neg (not_le.mpr hp1), if_neg (not_le.mpr hp2),
    if_neg (not_le.mpr (rfo_denominator_pos E a p₁ hE ha hp1)),
    if_neg (not_le.mpr (rfo_denominator_pos E a p₂ hE ha hp2)),
    if_neg (not_le.mpr hterm1), if_neg (not_le.mpr hterm2)]
  have hys : 0 ≤ yield_scale E := (Real.rpow_pos_of_pos hE _).le
  have hrp : r_term E a p₂ ^ ((1:ℝ)/2.5) ≤ r_term E a p₁ ^ ((1:ℝ)/2.5) :=
    Real.rpow_le_rpow hterm2.le (r_term_anti E a p₁ p₂ hE ha hp1 h12) (by norm_num)
  have hm := mul_le_mul_of_nonneg_right hrp hys
  exact (div_le_div_right (by norm_num : (0:ℝ) < 1000)).mpr hm

/-- C10 (amended): for positive energy and altitude, whenever the
inverted overpressure formula stays above its 10 m floor at the highest
(100 kPa) threshold, the three uncapped radii are ordered by damage
threshold and the capped window-breakage radius still dominates
`min(radiusStructuralDamage, 300)`.  (The unrestricted claim fails: the
300 km cap applies only to the window radius — see the counterexample —
and the 10 m floor can likewise invert adjacent radii.) -/
theorem blast_radii_ordered (energy altitude : ℝ) (hE : 0 < energy) (ha : 0 < altitude)
    (hterm : 0 < r_term (energy * 1000) altitude 100000) :
    min (estimateBlastEffects energy altitude).radiusStructuralDamage 300 ≤
        (estimateBlastEffects energy altitude).radiusWindowBreak ∧
    (estimateBlastEffects energy altitude).radiusSevereDestruction ≤
        (estimateBlastEffects energy altitude).radiusStructuralDamage ∧
    (estimateBlastEffects energy altitude).radiusExtreme.getD 0 ≤
        (estimateBlastEffects energy altitude).radiusSevereDestruction := by
  have hguard : ¬ (energy ≤ 0 ∨ altitude ≤ 0) :=
    not_or.mpr ⟨not_le.mpr hE, not_le.mpr ha⟩
  have hEk : 0 < energy * 1000 := by linarith
  have hterm35 : 0 < r_term (energy * 1000) altitude 35000 :=
    lt_of_lt_of_le hterm
      (r_term_anti (energy * 1000) altitude 35000 100000 hEk ha (by norm_num) (by norm_num))
  have hterm20 : 0 < r_term (energy * 1000) altitude 20000 :=
    lt_of_lt_of_le hterm35
      (r_term_anti (energy * 1000) altitude 20000 35000 hEk ha (by norm_num) (by norm_num))
  have hb100 : rangeForOverpressure (energy * 1000) altitude 100000 ≤
      rangeForOverpressure (energy * 1000) altitude 35000 :=
    rangeForOverpressure_anti (energy * 1000) altitude 35000 100000 hEk ha
      (by norm_num) (by norm_num) hterm
  have hb35 : rangeForOverpressure (energy * 1000) altitude 35000 ≤
      rangeForOverpressure (energy * 1000) altitude 20000 :=
    rangeForOverpressure_anti (energy * 1000) altitude 20000 35000 hEk ha
      (by norm_num) (by norm_num) hterm35
  have hb20 : rangeForOverpressure (energy * 1000) altitude 20000 ≤
      rangeForOverpressure (energy * 1000) altitude 2000 :=
    rangeForOverpressure_anti (energy * 1000) altitude 2000 20000 hEk ha
      (by norm_num) (by norm_num) hterm20
  have htuple :
      (attenuated_radii (energy * 1000) altitude).2.1 ≤
        (attenuated_radii (energy * 1000) altitude).1 ∧
      (attenuated_radii (energy * 1000) altitude).2.2.1 ≤
        (attenuated_radii (energy * 1000) altitude).2.1 ∧
      (attenuated_radii (energy * 1000) altitude).2.2.2 ≤
        (attenuated_radii (energy * 1000) altitude).2.2.1 := by
    rw [attenuated_radii]
    split
    · have hfa : 0 ≤ attenuationFactor altitude := (Real.exp_pos _).le
      exact ⟨mul_le_mul_of_nonneg_right hb20 hfa,
        mul_le_mul_of_nonneg_right hb35 hfa,
        mul_le_mul_of_nonneg_right hb100 hfa⟩
    · exact ⟨hb20, hb35, hb100⟩
  have hWB : (estimateBlastEffects energy altitude).radiusWindowBreak =
      cappedWindowBreak (energy * 1000) altitude := by
    rw [estimateBlastEffects, if_neg hguard]
  have hSD : (estimateBlastEffects energy altitude).radiusStructuralDamage =
      (attenuated_radii (energy * 1000) altitude).2.1 := by
    rw [estimateBlastEffects, if_neg hguard]
  have hSV : (estimateBlastEffects energy altitude).radiusSevereDestruction =
      (attenuated_radii (energy * 1000) altitude).2.2.1 := by
    rw [estimateBlastEffects, if_neg hguard]
  have hEX : (estimateBlastEffects energy altitude).radiusExtreme =
      some ((attenuated_radii (energy * 1000) altitude).2.2.2) := by
    rw [estimateBlastEffects, if_neg hguard]
  refine ⟨?_, ?_, ?_⟩
  · rw [hWB, hSD, cappedWindowBreak]
    split
    · rename_i hcap
      exact min_le_of_right_le le_rfl
    · exact min_le_of_left_le htuple.1
  · rw [hSV, hSD]
    exact htuple.2.1
  · rw [hEX, hSV, Option.getD_some]
    exact htuple.2.2

/-- Witness for the amended C10: at 0.001 Mt and a 6789 m burst altitude
the 100 kPa range term is positive and the radii obey the amended
ordering. -/
theorem blast_radii_ordered_witness :
    min (estimateBlastEffects 0.001 6789).radiusStructuralDamage 300 ≤
        (estimateBlastEffects 0.001 6789).radiusWindowBreak ∧
    (estimateBlastEffects 0.001 6789).radiusSevereDestruction ≤
        (estimateBlastEffects 0.001 6789).radiusStructuralDamage ∧
    (estimateBlastEffects 0.001 6789).radiusExtreme.getD 0 ≤
        (estimateBlastEffects 0.001 6789).radiusSevereDestruction := by
  apply blast_radii_ordered 0.001 6789 (by norm_num) (by norm_num)
  rw [r_term, rfo_denominator, p_1kt, alt_factor,
    show ((0.001:ℝ) * 1000) = 1 by norm_num, Real.one_rpow]
  norm_num

/-- Witness for the amended C5: a 1 km/s entry with default options keeps
its full mass, excluding the coincidence of ground impact and ablation. -/
theorem groundImpact_excludes_zero_mass_low_witness :
    (integrateTrajectory ecW bpC optsA 2).impact.mass = bpC.mass ∧
    ¬ ((integrateTrajectory ecW bpC optsA 2).impact.groundImpact = true ∧
       (integrateTrajectory ecW bpC optsA 2).impact.mass = 0) :=
  groundImpact_excludes_zero_mass_low ecW bpC optsA 2
    (by norm_num [bpC]) (by norm_num [bpC]) (by norm_num [ecW])
    (by show 0 ≤ Real.sin (toRadians 90); rw [sin_toRadians_90]; norm_num)
    (show (0:ℝ) ≤ 0.05 by norm_num) (show (0:ℝ) ≤ 0.7 by norm_num)
    (show (0:ℝ) < 8e6 by norm_num) (show (0:ℝ) ≤ 1.0 by norm_num)
    (show (0:ℝ) ≤ 3 by norm_num) (by norm_num [ecW])

end
